import Mathlib

/-!
Verification of the ACE-open PATENTMATCH slice: a shallow embedding of
`src/ace/metrics.py` (`MetricsCalculator`) and `src/ace/patent.py`
(`PatentSample`, `PatentEnvironmentResult`, `PatentMatchEnvironment`),
together with a spec-modelled `Playbook` for the id-uniqueness property.

Python floats are embedded as rationals (`ℚ`); the transcendental
perplexity computation is kept symbolic in the `MVal` type so that the
record of which branch produced it, and from which data, is preserved
exactly while staying decidable.  Python `str.strip`/`str.upper` are
embedded as ASCII trimming/upper-casing on the character list.  Values of
the open `raw` mapping are distinguished by the behavior of the `float()`
coercion applied to them, and the exception a failing `float()` raises out
of `evaluate` is modelled as an `Except.error` result, with the environment
state and the caller's sample threaded through every path.
-/

set_option linter.unusedVariables false

namespace ACE

/-- Python `str.strip()`: drop whitespace from both ends of the character list. -/
def stripChars (l : List Char) : List Char :=
  (l.dropWhile Char.isWhitespace).rdropWhile Char.isWhitespace

/-- Python `str.strip()` on strings. -/
def pyStrip (s : String) : String :=
  ⟨stripChars s.data⟩

/-- Python `str.upper()` (ASCII): upper-case every character. -/
def pyUpper (s : String) : String :=
  ⟨s.data.map Char.toUpper⟩

/-- Value of one metric entry.  Rationals embed ordinary Python float
arithmetic; `inf` is `float('inf')`; the two `exp` constructors record the
transcendental perplexity computations of `metrics.py` symbolically:
`expNegAvgLog ts` is `exp(-(Σ log tᵢ) / len ts)` (perplexity from recorded
probabilities, `ts` being the clamped per-sample probabilities) and
`expNegLog x` is `exp(-log x)` (perplexity estimated from accuracy). -/
inductive MVal
  | q (x : ℚ)
  | inf
  | expNegAvgLog (actualProbs : List ℚ)
  | expNegLog (x : ℚ)
deriving DecidableEq, Repr

/-- State of `MetricsCalculator` (metrics.py lines 10-36): the three lists
mutated by `add` and cleared by `reset`. -/
structure MetricsCalculator where
  predictions : List String
  labels : List String
  probabilities : List ℚ
deriving DecidableEq, Repr

/-- Constructor `MetricsCalculator.__init__`, which just calls `reset`. -/
def MetricsCalculator.init : MetricsCalculator :=
  { predictions := [], labels := [], probabilities := [] }

/-- Method `MetricsCalculator.reset` (metrics.py lines 13-17). -/
def MetricsCalculator.reset (c : MetricsCalculator) : MetricsCalculator :=
  { predictions := [], labels := [], probabilities := [] }

/-- Method `MetricsCalculator.add` (metrics.py lines 19-36): append prediction and
label; append the probability only when one is given. -/
def MetricsCalculator.add (c : MetricsCalculator) (prediction label : String)
    (probability : Option ℚ) : MetricsCalculator :=
  { predictions := c.predictions ++ [prediction],
    labels := c.labels ++ [label],
    probabilities :=
      match probability with
      | some p => c.probabilities ++ [p]
      | none => c.probabilities }

/-- Count `sum(1 for p, l in zip(predictions, labels) if p == l)` of metrics.py line 57. -/
def countCorrect (preds labels : List String) : Nat :=
  (preds.zip labels).countP (fun pl => pl.1 == pl.2)

/-- The `positive_class` selection of metrics.py lines 62-73, with
`sorted(set(labels))` embedded as a sorted deduplication. -/
def positiveClass (labels : List String) : String :=
  let unique := (labels.dedup).mergeSort (fun a b => decide (a ≤ b))
  if 2 ≤ unique.length then
    if "X" ∈ unique then "X"
    else if unique.length = 2 then unique.getD 1 ""
    else unique.getD 0 ""
  else if unique.length = 1 then unique.getD 0 ""
  else "X"

/-- True positives (metrics.py lines 76-80). -/
def truePos (preds labels : List String) (pos : String) : Nat :=
  (preds.zip labels).countP (fun pl => pl.1 == pos && pl.2 == pos)

/-- False positives (metrics.py lines 81-85). -/
def falsePos (preds labels : List String) (pos : String) : Nat :=
  (preds.zip labels).countP (fun pl => pl.1 == pos && !(pl.2 == pos))

/-- False negatives (metrics.py lines 86-90). -/
def falseNeg (preds labels : List String) (pos : String) : Nat :=
  (preds.zip labels).countP (fun pl => !(pl.1 == pos) && pl.2 == pos)

/-- True negatives (metrics.py lines 91-95). -/
def trueNeg (preds labels : List String) (pos : String) : Nat :=
  (preds.zip labels).countP (fun pl => !(pl.1 == pos) && !(pl.2 == pos))

/-- Accuracy (metrics.py lines 56-58): fraction of agreeing pairs. -/
def accuracyOf (preds labels : List String) : ℚ :=
  (countCorrect preds labels : ℚ) / (preds.length : ℚ)

/-- Precision (metrics.py line 98): `tp / (tp + fp) if (tp + fp) > 0 else 0.0`. -/
def precisionOf (tp fp : Nat) : ℚ :=
  if 0 < tp + fp then (tp : ℚ) / ((tp : ℚ) + (fp : ℚ)) else 0

/-- Recall (metrics.py line 101): `tp / (tp + fn) if (tp + fn) > 0 else 0.0`. -/
def recallOf (tp fn : Nat) : ℚ :=
  if 0 < tp + fn then (tp : ℚ) / ((tp : ℚ) + (fn : ℚ)) else 0

/-- F1 score (metrics.py lines 104-112). -/
def f1Of (precision rec : ℚ) : ℚ :=
  if 0 < precision + rec then 2 * precision * rec / (precision + rec) else 0

/-- Perplexity (metrics.py lines 114-143), kept symbolic in `MVal`: with
probabilities recorded for every prediction, the clamped per-sample
probabilities are gathered under `expNegAvgLog`; otherwise it is estimated
from accuracy (`expNegLog`), infinite at accuracy zero. -/
def perplexityOf (probabilities : List ℚ) (preds labels : List String)
    (accuracy : ℚ) : MVal :=
  if probabilities ≠ [] ∧ probabilities.length = preds.length then
    MVal.expNegAvgLog ((probabilities.zip (preds.zip labels)).map
      (fun t =>
        if t.2.1 == t.2.2 then max t.1 ((1 : ℚ) / 10000000000)
        else max (1 - t.1) ((1 : ℚ) / 10000000000)))
  else
    let error_rate : ℚ := 1 - accuracy
    if 0 < accuracy then MVal.expNegLog (max accuracy ((1 : ℚ) / 100))
    else MVal.inf

/-- Method `MetricsCalculator.compute` (metrics.py lines 38-145), producing the
metrics dictionary in its Python insertion order. -/
def MetricsCalculator.compute (c : MetricsCalculator) : List (String × MVal) :=
  if c.predictions = [] ∨ c.labels = [] then
    [("accuracy", MVal.q 0), ("precision", MVal.q 0), ("recall", MVal.q 0),
     ("f1", MVal.q 0), ("perplexity", MVal.inf)]
  else
    let accuracy := accuracyOf c.predictions c.labels
    let positive_class := positiveClass c.labels
    let tp := truePos c.predictions c.labels positive_class
    let fp := falsePos c.predictions c.labels positive_class
    let fn := falseNeg c.predictions c.labels positive_class
    let tn := trueNeg c.predictions c.labels positive_class
    let precision := precisionOf tp fp
    let «recall» := recallOf tp fn
    let f1 := f1Of precision «recall»
    let perplexity := perplexityOf c.probabilities c.predictions c.labels accuracy
    [("accuracy", MVal.q accuracy), ("precision", MVal.q precision),
     ("recall", MVal.q «recall»), ("f1", MVal.q f1), ("perplexity", perplexity)]

/-- Modelled from the spec: the base `Sample` of the adaptation core, whose
module is not under src/.  Per spec section 3 it carries free-form fields plus
`ground_truth`, `context` and a `metadata` mapping; patent.py additionally
reads `question` on it and guards `ground_truth` with `or ""`, so
`ground_truth` is optional. -/
structure Sample where
  question : String
  ground_truth : Option String
  context : String
  metadata : List (String × String)
deriving DecidableEq, Repr

/-- Structure `PatentSample` (patent.py lines 13-35): claim-paragraph pair plus the
base-Sample fields. -/
structure PatentSample where
  claim : String
  paragraph : String
  question : String
  ground_truth : Option String
  context : String
  metadata : List (String × String)
deriving DecidableEq, Repr

/-- Construction of a `PatentSample` followed by `__post_init__` (patent.py lines
30-35): an empty `question` is replaced by the formatted claim/paragraph
text, a non-empty one is kept. -/
def PatentSample.make (claim paragraph question : String) (ground_truth : Option String)
    (context : String) (metadata : List (String × String)) : PatentSample :=
  { claim := claim, paragraph := paragraph,
    question :=
      if question = "" then "Claim: " ++ claim ++ "\n\nParagraph: " ++ paragraph
      else question,
    ground_truth := ground_truth, context := context, metadata := metadata }

/-- A value stored in the open `raw` mapping (spec: "any additional
structured fields", with no schema lock-in).  patent.py touches these values
only through `float(...)` (lines 91 and 93), so the embedding distinguishes
them exactly by the behavior of that coercion: `num q` stands for the values
on which `float` returns `q` (ints, floats, numeric strings), and
`nonNumeric` for any value on which `float` raises (e.g. `None`, a list, a
non-numeric string such as "high"). -/
inductive PyVal
  | num (q : ℚ)
  | nonNumeric
deriving DecidableEq, Repr

/-- Python `float(...)` applied to a raw value: the number, or the raised
`ValueError`/`TypeError` as an `Except.error`. -/
def pyFloat : PyVal → Except String ℚ
  | PyVal.num q => Except.ok q
  | PyVal.nonNumeric => Except.error "could not convert value to float"

/-- Modelled from the spec: `GeneratorOutput` of the roles module, which is
not under src/.  Per spec section 3 it has `reasoning`, `final_answer`,
`bullet_ids` and the open `raw` mapping, whose values are arbitrary Python
values (`PyVal`). -/
structure GeneratorOutput where
  reasoning : String
  final_answer : String
  bullet_ids : List String
  raw : List (String × PyVal)
deriving DecidableEq, Repr

/-- Modelled from the spec: the base `EnvironmentResult` of the adaptation
core (spec section 3): `feedback`, `ground_truth`, `metrics`. -/
structure EnvironmentResult where
  feedback : String
  ground_truth : String
  metrics : List (String × MVal)
deriving DecidableEq, Repr

/-- Structure `PatentEnvironmentResult` (patent.py lines 38-47): extends the base
result with `prediction` and optional `probability`. -/
structure PatentEnvironmentResult extends EnvironmentResult where
  prediction : String
  probability : Option ℚ
deriving DecidableEq, Repr

/-- The dynamic type of the value `evaluate` returns: either a plain
`EnvironmentResult` (invalid-label branch) or a `PatentEnvironmentResult`. -/
inductive EvalResult
  | base (r : EnvironmentResult)
  | patent (r : PatentEnvironmentResult)
deriving DecidableEq, Repr

/-- The dynamic type of the sample passed to `evaluate`: a base `Sample` or
a `PatentSample` (patent.py checks `isinstance`). -/
inductive SampleArg
  | base (s : Sample)
  | patent (p : PatentSample)
deriving DecidableEq, Repr

/-- State of `PatentMatchEnvironment` (patent.py lines 58-60). -/
structure PatentMatchEnvironment where
  metrics_calculator : MetricsCalculator
  step_metrics : List (List (String × MVal))
deriving DecidableEq, Repr

/-- Constructor `PatentMatchEnvironment.__init__` (patent.py lines 58-60). -/
def PatentMatchEnvironment.init : PatentMatchEnvironment :=
  { metrics_calculator := MetricsCalculator.init, step_metrics := [] }

/-- Everything observable about one `evaluate` call: the environment state
after the call, the caller's sample object after the call (the method only
rebinds a local variable and never assigns to the argument's attributes, so
the embedding threads the caller's object through), and the returned value
or — when the `float()` coercion of patent.py lines 91/93 raises — the
escaping exception as an `Except.error`.  State and sample survive a raised
exception in Python, so they are threaded on every path. -/
structure EvalOutcome where
  env : PatentMatchEnvironment
  sampleAfter : SampleArg
  result : Except String EvalResult
deriving Repr

/-- Sample conversion at the top of `evaluate` (patent.py lines 75-83): a
`PatentSample` is used as passed; a base `Sample` is converted into one,
pulling claim and paragraph out of the metadata mapping. -/
def evalSample (sampleArg : SampleArg) : PatentSample :=
  match sampleArg with
  | SampleArg.patent p => p
  | SampleArg.base s =>
      PatentSample.make ((s.metadata.lookup "claim").getD "")
        ((s.metadata.lookup "paragraph").getD "") "" s.ground_truth s.context s.metadata

/-- Probability extraction (patent.py lines 88-93): `confidence` wins over
`probability`, each passed through `float(...)`, whose failure propagates as
the raised exception; neither key present gives `None`. -/
def extractProb (raw : List (String × PyVal)) : Except String (Option ℚ) :=
  match raw.lookup "confidence" with
  | some v =>
    match pyFloat v with
    | Except.ok q => Except.ok (some q)
    | Except.error e => Except.error e
  | none =>
    match raw.lookup "probability" with
    | some v =>
      match pyFloat v with
      | Except.ok q => Except.ok (some q)
      | Except.error e => Except.error e
    | none => Except.ok none

/-- Feedback construction for a valid prediction (patent.py lines 105-124). -/
def feedbackFor (prediction ground_truth : String) : String :=
  if prediction = ground_truth then
    if prediction = "X" then
      "Correct: The paragraph does break novelty (X classification)"
    else
      "Correct: The paragraph does not break novelty (A classification)"
  else
    if prediction = "X" then
      "Incorrect: Classified as X (match) but should be A (no match). The paragraph does not contain all key features of the claim."
    else
      "Incorrect: Classified as A (no match) but should be X (match). The paragraph actually describes the same invention and breaks novelty."

/-- Method `PatentMatchEnvironment.evaluate` (patent.py lines 62-139), translated
statement by statement.  The `isinstance` conversion (lines 75-83) builds a
fresh `PatentSample` from the metadata; normalization (lines 85-86) is
`.strip().upper()`; probability extraction (lines 88-93) runs before label
validation, prefers `confidence` over `probability`, and a failing `float()`
escapes the method before anything else happens; the invalid-label branch
(lines 95-103) returns a plain `EnvironmentResult` without touching the
calculator; the valid branch (lines 105-139) builds feedback, adds to the
calculator, computes metrics and returns a `PatentEnvironmentResult`. -/
def PatentMatchEnvironment.evaluate (env : PatentMatchEnvironment)
    (sampleArg : SampleArg) (generator_output : GeneratorOutput) : EvalOutcome :=
  let sample : PatentSample := evalSample sampleArg
  let ground_truth := pyUpper (pyStrip (sample.ground_truth.getD ""))
  let prediction := pyUpper (pyStrip generator_output.final_answer)
  match extractProb generator_output.raw with
  | Except.error e =>
    { env := env, sampleAfter := sampleArg, result := Except.error e }
  | Except.ok probability =>
    if prediction = "X" ∨ prediction = "A" then
      let feedback := feedbackFor prediction ground_truth
      let mc := env.metrics_calculator.add prediction ground_truth probability
      let current_metrics := mc.compute
      { env := { metrics_calculator := mc,
                 step_metrics := env.step_metrics ++ [current_metrics] },
        sampleAfter := sampleArg,
        result := Except.ok (EvalResult.patent
          { feedback := feedback, ground_truth := ground_truth,
            metrics := current_metrics, prediction := prediction,
            probability := probability }) }
    else
      { env := env,
        sampleAfter := sampleArg,
        result := Except.ok (EvalResult.base
          { feedback := "Invalid classification '" ++ prediction
              ++ "'. Must be 'X' (match) or 'A' (no match).",
            ground_truth := ground_truth,
            metrics := [("accuracy", MVal.q 0), ("error", MVal.q 1)] }) }

/-- Method `PatentMatchEnvironment.reset_metrics` (patent.py lines 150-153). -/
def PatentMatchEnvironment.reset_metrics (env : PatentMatchEnvironment) :
    PatentMatchEnvironment :=
  { metrics_calculator := env.metrics_calculator.reset, step_metrics := [] }

/-- Run a sequence of `evaluate` calls, keeping only the environment state. -/
def runEvals (env : PatentMatchEnvironment)
    (calls : List (SampleArg × GeneratorOutput)) : PatentMatchEnvironment :=
  calls.foldl (fun e c => (e.evaluate c.1 c.2).env) env

/-- Modelled from the spec: a Playbook bullet (spec section 3); the Playbook
module is not under src/. -/
structure Bullet where
  id : Nat
  «section» : String
  content : String
  helpful_count : Nat
  harmful_count : Nat
deriving DecidableEq, Repr

/-- Modelled from the spec: the Playbook store (spec section 3), a mapping
from section name to ordered bullets plus a monotonically increasing id
counter; the Playbook module is not under src/. -/
structure Playbook where
  sections : List (String × List Bullet)
  next_id : Nat
deriving DecidableEq, Repr

/-- The empty Playbook a run starts from. -/
def Playbook.empty : Playbook :=
  { sections := [], next_id := 0 }

/-- Append a bullet at the end of its section, creating the section if absent
(insertion order preserved, per spec section 3). -/
def addToSection (sections : List (String × List Bullet)) (sec : String) (b : Bullet) :
    List (String × List Bullet) :=
  match sections with
  | [] => [(sec, [b])]
  | (name, bs) :: rest =>
    if name = sec then (name, bs ++ [b]) :: rest
    else (name, bs) :: addToSection rest sec b

/-- Modelled from the spec: `Playbook.add(section, content) -> id` (spec
section 4.1), which creates a bullet with a fresh id from the counter and
never fails. -/
def Playbook.add (pb : Playbook) (sec content : String) : Playbook × Nat :=
  let b : Bullet := { id := pb.next_id, «section» := sec, content := content,
                      helpful_count := 0, harmful_count := 0 }
  ({ sections := addToSection pb.sections sec b, next_id := pb.next_id + 1 },
   pb.next_id)

/-- Apply a sequence of ADD operations, collecting the returned ids in order. -/
def Playbook.addAll (pb : Playbook) (ops : List (String × String)) : Playbook × List Nat :=
  match ops with
  | [] => (pb, [])
  | op :: rest =>
    let r := pb.add op.1 op.2
    let r2 := r.1.addAll rest
    (r2.1, r.2 :: r2.2)

/-! Concrete inputs used by the witness theorems. -/

/-- A concrete patent sample with ground truth "X". -/
def sampW : SampleArg :=
  SampleArg.patent
    (PatentSample.make "A device with feature X" "The invention includes feature X" ""
      (some "X") "" [])

/-- A generator output whose answer needs normalization and which carries a
numeric confidence entry. -/
def genW : GeneratorOutput :=
  { reasoning := "both features found", final_answer := " x ", bullet_ids := [],
    raw := [("confidence", PyVal.num ((9 : ℚ) / 10))] }

/-- A generator output with an invalid label. -/
def genInvalid : GeneratorOutput :=
  { reasoning := "unsure", final_answer := "maybe", bullet_ids := [], raw := [] }

/-- A generator output with an invalid label and a confidence value on which
`float()` raises (e.g. the string "high"). -/
def genRaise : GeneratorOutput :=
  { reasoning := "unsure", final_answer := "maybe", bullet_ids := [],
    raw := [("confidence", PyVal.nonNumeric)] }

/-- A generator output carrying both a numeric confidence and a numeric
probability entry. -/
def genBoth : GeneratorOutput :=
  { reasoning := "r", final_answer := "A", bullet_ids := [],
    raw := [("confidence", PyVal.num ((3 : ℚ) / 4)),
            ("probability", PyVal.num ((1 : ℚ) / 2))] }

/-- The result record `evaluate` produces on `sampW` and `genW` from a fresh
environment, projected out of the call. -/
def resW : PatentEnvironmentResult :=
  match (PatentMatchEnvironment.init.evaluate sampW genW).result with
  | Except.ok (EvalResult.patent r) => r
  | _ =>
      { feedback := "", ground_truth := "", metrics := [], prediction := "",
        probability := none }

/-- The result record `evaluate` produces on `sampW` and `genBoth` from a
fresh environment, projected out of the call. -/
def resB : PatentEnvironmentResult :=
  match (PatentMatchEnvironment.init.evaluate sampW genBoth).result with
  | Except.ok (EvalResult.patent r) => r
  | _ =>
      { feedback := "", ground_truth := "", metrics := [], prediction := "",
        probability := none }

/-- A concrete calculator state with one correct and one wrong prediction. -/
def calcW : MetricsCalculator :=
  { predictions := ["X", "A"], labels := ["X", "X"], probabilities := [] }

/-! Helper lemmas about the character-level normalization. -/

/-- Unfolded form of `Char.toUpper`. -/
theorem toUpper_def (c : Char) :
    Char.toUpper c = if c.toNat ≥ 97 ∧ c.toNat ≤ 122 then Char.ofNat (c.toNat - 32) else c :=
  rfl

/-- Evaluation of `Char.ofNat` on the code points produced by upper-casing. -/
theorem toNat_ofNat_sub : ∀ m, m < 123 → 97 ≤ m → (Char.ofNat (m - 32)).toNat = m - 32 := by
  decide

/-- Characters are equal exactly when their code points are. -/
theorem char_eq_iff_toNat (c d : Char) : c = d ↔ c.toNat = d.toNat := by
  constructor
  · rintro rfl; rfl
  · intro h
    have h1 := Char.ofNat_toNat c
    have h2 := Char.ofNat_toNat d
    rw [← h1, ← h2, h]

/-- Code-point characterization of `Char.isWhitespace`. -/
theorem isWhitespace_iff_toNat (c : Char) :
    c.isWhitespace = true ↔ (c.toNat = 32 ∨ c.toNat = 9 ∨ c.toNat = 13 ∨ c.toNat = 10) := by
  simp only [Char.isWhitespace, Bool.or_eq_true, decide_eq_true_eq]
  rw [char_eq_iff_toNat c ' ', char_eq_iff_toNat c '\t', char_eq_iff_toNat c '\r',
    char_eq_iff_toNat c '\n']
  rw [show (' ').toNat = 32 from rfl, show ('\t').toNat = 9 from rfl,
    show ('\r').toNat = 13 from rfl, show ('\n').toNat = 10 from rfl]
  tauto

/-- Upper-casing a character does not change whether it is whitespace. -/
theorem isWhitespace_toUpper (c : Char) : (Char.toUpper c).isWhitespace = c.isWhitespace := by
  by_cases h : c.toNat ≥ 97 ∧ c.toNat ≤ 122
  · have h1 : Char.toUpper c = Char.ofNat (c.toNat - 32) := by rw [toUpper_def, if_pos h]
    have h2 : (Char.toUpper c).toNat = c.toNat - 32 := by
      rw [h1]; exact toNat_ofNat_sub c.toNat (by omega) h.1
    have hl : ¬ (Char.toUpper c).isWhitespace = true := by
      rw [isWhitespace_iff_toNat, h2]; omega
    have hr : ¬ c.isWhitespace = true := by
      rw [isWhitespace_iff_toNat]; omega
    simp only [Bool.not_eq_true] at hl hr
    rw [hl, hr]
  · rw [toUpper_def, if_neg h]

/-- Upper-casing a character is idempotent. -/
theorem toUpper_toUpper (c : Char) : Char.toUpper (Char.toUpper c) = Char.toUpper c := by
  by_cases h : c.toNat ≥ 97 ∧ c.toNat ≤ 122
  · have h1 : Char.toUpper c = Char.ofNat (c.toNat - 32) := by rw [toUpper_def, if_pos h]
    have h2 : (Char.toUpper c).toNat = c.toNat - 32 := by
      rw [h1]; exact toNat_ofNat_sub c.toNat (by omega) h.1
    rw [toUpper_def (Char.toUpper c), if_neg (by omega)]
  · rw [toUpper_def c, if_neg h, toUpper_def c, if_neg h]

/-- Mapping commutes with right trimming when the function preserves the predicate. -/
theorem rdropWhile_map {α β : Type} (f : α → β) (p : β → Bool) (l : List α) :
    (l.map f).rdropWhile p = (l.rdropWhile (p ∘ f)).map f := by
  simp [List.rdropWhile, ← List.map_reverse, List.dropWhile_map]

/-- Upper-casing commutes with trimming. -/
theorem stripChars_map_toUpper (l : List Char) :
    stripChars (l.map Char.toUpper) = (stripChars l).map Char.toUpper := by
  have hp : (Char.isWhitespace ∘ Char.toUpper) = Char.isWhitespace := funext isWhitespace_toUpper
  unfold stripChars
  rw [List.dropWhile_map, hp, rdropWhile_map, hp]

/-- A trimmed character list has no leading whitespace left to drop. -/
theorem dropWhile_stripChars (l : List Char) :
    (stripChars l).dropWhile Char.isWhitespace = stripChars l := by
  rw [List.dropWhile_eq_self_iff]
  intro hl
  have hpre : stripChars l <+: l.dropWhile Char.isWhitespace :=
    List.rdropWhile_prefix _ _
  have hlen : 0 < (l.dropWhile Char.isWhitespace).length :=
    lt_of_lt_of_le hl hpre.length_le
  have hget : (stripChars l).get ⟨0, hl⟩ =
      (l.dropWhile Char.isWhitespace).get ⟨0, hlen⟩ := by
    simpa using hpre.getElem hl
  rw [hget]
  exact List.dropWhile_get_zero_not Char.isWhitespace l hlen

/-- Trimming a character list is idempotent. -/
theorem stripChars_idem (l : List Char) : stripChars (stripChars l) = stripChars l := by
  show ((stripChars l).dropWhile Char.isWhitespace).rdropWhile Char.isWhitespace = stripChars l
  rw [dropWhile_stripChars]
  exact List.rdropWhile_idempotent _ _

/-- Python `.strip().upper()` normalization is idempotent. -/
theorem norm_idem (s : String) :
    pyUpper (pyStrip (pyUpper (pyStrip s))) = pyUpper (pyStrip s) := by
  apply String.ext
  show (stripChars ((stripChars s.data).map Char.toUpper)).map Char.toUpper =
    (stripChars s.data).map Char.toUpper
  rw [stripChars_map_toUpper, stripChars_idem, List.map_map]
  have h : Char.toUpper ∘ Char.toUpper = Char.toUpper := funext toUpper_toUpper
  rw [h]

/-! Helper lemmas about the metrics calculator and the Playbook. -/

/-- When "X" occurs among the stored labels, the positive class is "X". -/
theorem positiveClass_of_memX {labels : List String} (hx : "X" ∈ labels) :
    positiveClass labels = "X" := by
  unfold positiveClass
  have hmem : "X" ∈ (labels.dedup).mergeSort (fun a b => decide (a ≤ b)) := by
    rw [List.mem_mergeSort]; exact List.mem_dedup.mpr hx
  by_cases h2 : 2 ≤ ((labels.dedup).mergeSort (fun a b => decide (a ≤ b))).length
  · rw [if_pos h2, if_pos hmem]
  · have hne : (labels.dedup).mergeSort (fun a b => decide (a ≤ b)) ≠ [] :=
      List.ne_nil_of_mem hmem
    have hpos : 0 < ((labels.dedup).mergeSort (fun a b => decide (a ≤ b))).length :=
      List.length_pos.mpr hne
    have hlen : ((labels.dedup).mergeSort (fun a b => decide (a ≤ b))).length = 1 := by omega
    rw [if_neg h2, if_pos hlen]
    rcases List.length_eq_one.mp hlen with ⟨a, ha⟩
    rw [ha] at hmem ⊢
    rcases List.mem_singleton.mp hmem with rfl
    rfl

/-- Both branches of `compute` produce entries for all five metric names. -/
theorem compute_lookup_isSome (c : MetricsCalculator) (k : String)
    (hk : k = "accuracy" ∨ k = "precision" ∨ k = "recall" ∨ k = "f1" ∨ k = "perplexity") :
    (c.compute.lookup k).isSome = true := by
  unfold MetricsCalculator.compute
  rcases hk with rfl | rfl | rfl | rfl | rfl <;> split <;> simp [List.lookup]

/-- Adding one bullet advances the id counter by one and returns the old counter. -/
theorem add_next_id (pb : Playbook) (sec content : String) :
    (pb.add sec content).1.next_id = pb.next_id + 1 ∧ (pb.add sec content).2 = pb.next_id :=
  ⟨rfl, rfl⟩

/-- Every id returned by a sequence of ADDs is at least the starting counter. -/
theorem addAll_ids_ge (ops : List (String × String)) :
    ∀ (pb : Playbook) (i : Nat), i ∈ (pb.addAll ops).2 → pb.next_id ≤ i := by
  induction ops with
  | nil => intro pb i h; simp [Playbook.addAll] at h
  | cons op rest ih =>
    intro pb i h
    simp only [Playbook.addAll, List.mem_cons] at h
    rcases h with rfl | h
    · exact Nat.le_refl _
    · have := ih (pb.add op.1 op.2).1 i h
      simp only [Playbook.add] at this
      omega

/-- The ids returned by a sequence of ADDs are strictly increasing. -/
theorem addAll_ids_sorted (ops : List (String × String)) :
    ∀ pb : Playbook, ((pb.addAll ops).2).Pairwise (fun a b => a < b) := by
  induction ops with
  | nil => intro pb; simp [Playbook.addAll]
  | cons op rest ih =>
    intro pb
    simp only [Playbook.addAll]
    refine List.pairwise_cons.mpr ⟨?_, ih _⟩
    intro b hb
    have h1 := addAll_ids_ge rest (pb.add op.1 op.2).1 b hb
    have h2 := (add_next_id pb op.1 op.2).2
    simp only [Playbook.add] at h1
    omega

/-- Full description of the raising path of `evaluate`: when one of the
`float()` coercions of patent.py lines 88-93 fails, the exception escapes
before label validation, leaving the environment untouched. -/
theorem evaluate_error (env : PatentMatchEnvironment) (sampleArg : SampleArg)
    (g : GeneratorOutput) (e : String)
    (hprob : extractProb g.raw = Except.error e) :
    env.evaluate sampleArg g =
      { env := env, sampleAfter := sampleArg, result := Except.error e } := by
  simp only [PatentMatchEnvironment.evaluate, hprob]

/-- Full description of the invalid-label branch of `evaluate` (patent.py
lines 95-103), reached when probability extraction returned: the
environment is untouched and a plain base result is returned. -/
theorem evaluate_invalid (env : PatentMatchEnvironment) (sampleArg : SampleArg)
    (g : GeneratorOutput) (p : Option ℚ)
    (hprob : extractProb g.raw = Except.ok p)
    (h : ¬(pyUpper (pyStrip g.final_answer) = "X" ∨ pyUpper (pyStrip g.final_answer) = "A")) :
    env.evaluate sampleArg g =
      { env := env, sampleAfter := sampleArg,
        result := Except.ok (EvalResult.base
          { feedback := "Invalid classification '" ++ pyUpper (pyStrip g.final_answer)
              ++ "'. Must be 'X' (match) or 'A' (no match).",
            ground_truth := pyUpper (pyStrip ((evalSample sampleArg).ground_truth.getD "")),
            metrics := [("accuracy", MVal.q 0), ("error", MVal.q 1)] }) } := by
  simp only [PatentMatchEnvironment.evaluate, hprob]
  rw [if_neg h]

/-- Full description of the valid-label branch of `evaluate` (patent.py
lines 105-139), reached when probability extraction returned `p`. -/
theorem evaluate_valid (env : PatentMatchEnvironment) (sampleArg : SampleArg)
    (g : GeneratorOutput) (p : Option ℚ)
    (hprob : extractProb g.raw = Except.ok p)
    (h : pyUpper (pyStrip g.final_answer) = "X" ∨ pyUpper (pyStrip g.final_answer) = "A") :
    env.evaluate sampleArg g =
      { env :=
          { metrics_calculator :=
              env.metrics_calculator.add (pyUpper (pyStrip g.final_answer))
                (pyUpper (pyStrip ((evalSample sampleArg).ground_truth.getD ""))) p,
            step_metrics := env.step_metrics ++
              [(env.metrics_calculator.add (pyUpper (pyStrip g.final_answer))
                (pyUpper (pyStrip ((evalSample sampleArg).ground_truth.getD ""))) p).compute] },
        sampleAfter := sampleArg,
        result := Except.ok (EvalResult.patent
          { feedback := feedbackFor (pyUpper (pyStrip g.final_answer))
              (pyUpper (pyStrip ((evalSample sampleArg).ground_truth.getD ""))),
            ground_truth := pyUpper (pyStrip ((evalSample sampleArg).ground_truth.getD "")),
            metrics := (env.metrics_calculator.add (pyUpper (pyStrip g.final_answer))
              (pyUpper (pyStrip ((evalSample sampleArg).ground_truth.getD ""))) p).compute,
            prediction := pyUpper (pyStrip g.final_answer),
            probability := p }) } := by
  simp only [PatentMatchEnvironment.evaluate, hprob]
  rw [if_pos h]

/-- Entry-by-entry description of `compute` on a non-empty calculator. -/
theorem compute_entries (c : MetricsCalculator)
    (hp : c.predictions ≠ []) (hl : c.labels ≠ []) :
    c.compute =
      [("accuracy", MVal.q (accuracyOf c.predictions c.labels)),
       ("precision", MVal.q (precisionOf
          (truePos c.predictions c.labels (positiveClass c.labels))
          (falsePos c.predictions c.labels (positiveClass c.labels)))),
       ("recall", MVal.q (recallOf
          (truePos c.predictions c.labels (positiveClass c.labels))
          (falseNeg c.predictions c.labels (positiveClass c.labels)))),
       ("f1", MVal.q (f1Of
          (precisionOf (truePos c.predictions c.labels (positiveClass c.labels))
            (falsePos c.predictions c.labels (positiveClass c.labels)))
          (recallOf (truePos c.predictions c.labels (positiveClass c.labels))
            (falseNeg c.predictions c.labels (positiveClass c.labels))))),
       ("perplexity", perplexityOf c.probabilities c.predictions c.labels
          (accuracyOf c.predictions c.labels))] := by
  unfold MetricsCalculator.compute
  rw [if_neg (by simp [hp, hl])]

/-! The claims. -/

/-- C5: after any sequence of evaluate calls starting from a fresh
environment, `reset_metrics` restores the state of a freshly constructed
environment: the calculator lists and the step metrics are empty, the whole
state equals the fresh one, and any subsequent evaluate call behaves as on a
fresh environment. -/
theorem claim_C5 (calls : List (SampleArg × GeneratorOutput)) :
    (runEvals PatentMatchEnvironment.init calls).reset_metrics.metrics_calculator.predictions
        = [] ∧
    (runEvals PatentMatchEnvironment.init calls).reset_metrics.metrics_calculator.labels = [] ∧
    (runEvals PatentMatchEnvironment.init calls).reset_metrics.metrics_calculator.probabilities
        = [] ∧
    (runEvals PatentMatchEnvironment.init calls).reset_metrics.step_metrics = [] ∧
    (runEvals PatentMatchEnvironment.init calls).reset_metrics = PatentMatchEnvironment.init ∧
    ∀ (s : SampleArg) (g : GeneratorOutput),
      (runEvals PatentMatchEnvironment.init calls).reset_metrics.evaluate s g =
        PatentMatchEnvironment.init.evaluate s g :=
  ⟨rfl, rfl, rfl, rfl, rfl, fun s g => rfl⟩

/-- C6: `evaluate` never mutates its sample argument; the caller's sample
object after the call is the very object that was passed in, hence all of
its fields are unchanged. -/
theorem claim_C6 (env : PatentMatchEnvironment) (sampleArg : SampleArg)
    (g : GeneratorOutput) :
    (env.evaluate sampleArg g).sampleAfter = sampleArg := by
  cases hprob : extractProb g.raw with
  | error e => rw [evaluate_error env sampleArg g e hprob]
  | ok p =>
    by_cases h : pyUpper (pyStrip g.final_answer) = "X" ∨ pyUpper (pyStrip g.final_answer) = "A"
    · rw [evaluate_valid env sampleArg g p hprob h]
    · rw [evaluate_invalid env sampleArg g p hprob h]

/-- C7: for every starting Playbook and every sequence of ADD operations,
the returned bullet ids are pairwise distinct. -/
theorem claim_C7 (pb : Playbook) (ops : List (String × String)) :
    ((pb.addAll ops).2).Pairwise (fun a b => a ≠ b) :=
  (addAll_ids_sorted ops pb).imp (fun h => Nat.ne_of_lt h)

/-- C10: constructing a `PatentSample` with an empty question sets the
question to the formatted claim/paragraph text, while a non-empty question
is preserved unchanged. -/
theorem claim_C10 (claim paragraph q : String) (gt : Option String) (ctx : String)
    (md : List (String × String)) :
    (PatentSample.make claim paragraph "" gt ctx md).question =
      "Claim: " ++ claim ++ "\n\nParagraph: " ++ paragraph ∧
    (q ≠ "" → (PatentSample.make claim paragraph q gt ctx md).question = q) := by
  constructor
  · rfl
  · intro hq
    simp only [PatentSample.make]
    rw [if_neg hq]

/-- Concrete instantiation of C10 at claim "A device", paragraph "Prior art"
and the non-empty question "Q?". -/
theorem claim_C10_witness :
    ((PatentSample.make "A device" "Prior art" "" (some "X") "" []).question =
      "Claim: " ++ "A device" ++ "\n\nParagraph: " ++ "Prior art" ∧
    ("Q?" ≠ "" →
      (PatentSample.make "A device" "Prior art" "Q?" (some "X") "" []).question = "Q?")) ∧
    "Q?" ≠ "" ∧
    (PatentSample.make "A device" "Prior art" "Q?" (some "X") "" []).question = "Q?" :=
  ⟨claim_C10 "A device" "Prior art" "Q?" (some "X") "" [],
   by decide,
   (claim_C10 "A device" "Prior art" "Q?" (some "X") "" []).2 (by decide)⟩

/-- C1 as amended: whenever the trimmed, upper-cased final answer is
neither "X" nor "A" and the probability extraction does not raise (the
consulted raw `confidence`/`probability` value, if any, is
float-convertible), `evaluate` returns normally with an ordinary base
`EnvironmentResult` whose feedback begins with "Invalid classification" and
whose metrics map "accuracy" to zero.  The proviso is forced by the code:
the `float()` calls of patent.py lines 88-93 run before label validation
and raise on non-numeric values, refuting the unconditional claim. -/
theorem claim_C1 (env : PatentMatchEnvironment) (sampleArg : SampleArg) (g : GeneratorOutput)
    (p : Option ℚ) (hprob : extractProb g.raw = Except.ok p)
    (h1 : pyUpper (pyStrip g.final_answer) ≠ "X")
    (h2 : pyUpper (pyStrip g.final_answer) ≠ "A") :
    ∃ r : EnvironmentResult,
      (env.evaluate sampleArg g).result = Except.ok (EvalResult.base r) ∧
      (∃ tail, r.feedback = "Invalid classification" ++ tail) ∧
      r.metrics.lookup "accuracy" = some (MVal.q 0) := by
  have h : ¬(pyUpper (pyStrip g.final_answer) = "X" ∨ pyUpper (pyStrip g.final_answer) = "A") :=
    not_or.mpr ⟨h1, h2⟩
  refine ⟨{ feedback := "Invalid classification '" ++ pyUpper (pyStrip g.final_answer)
                ++ "'. Must be 'X' (match) or 'A' (no match).",
            ground_truth := pyUpper (pyStrip ((evalSample sampleArg).ground_truth.getD "")),
            metrics := [("accuracy", MVal.q 0), ("error", MVal.q 1)] }, ?_, ?_, ?_⟩
  · rw [evaluate_invalid env sampleArg g p hprob h]
  · refine ⟨" '" ++ pyUpper (pyStrip g.final_answer)
      ++ "'. Must be 'X' (match) or 'A' (no match).", ?_⟩
    show ("Invalid classification '" ++ pyUpper (pyStrip g.final_answer))
        ++ "'. Must be 'X' (match) or 'A' (no match)." = _
    rw [show ("Invalid classification '" : String) = "Invalid classification" ++ " '" from rfl,
      String.append_assoc "Invalid classification" " '" (pyUpper (pyStrip g.final_answer))]
    exact String.append_assoc _ _ _
  · rfl

/-- Refutation of C1 as stated: on the answer "maybe" (invalid after
normalization) with a confidence value on which `float()` raises, `evaluate`
propagates the error raised before label validation instead of returning an
"Invalid classification" result. -/
theorem claim_C1_counterexample :
    pyUpper (pyStrip genRaise.final_answer) ≠ "X" ∧
    pyUpper (pyStrip genRaise.final_answer) ≠ "A" ∧
    (PatentMatchEnvironment.init.evaluate sampW genRaise).result =
      Except.error "could not convert value to float" ∧
    ∀ r : EnvironmentResult,
      (PatentMatchEnvironment.init.evaluate sampW genRaise).result ≠
        Except.ok (EvalResult.base r) := by
  have hres : (PatentMatchEnvironment.init.evaluate sampW genRaise).result =
      Except.error "could not convert value to float" := rfl
  refine ⟨by decide, by decide, hres, fun r h => ?_⟩
  rw [hres] at h
  exact Except.noConfusion h

/-- Concrete instantiation of the amended C1 on the answer "maybe" with an
empty raw mapping. -/
theorem claim_C1_witness :
    extractProb genInvalid.raw = Except.ok none ∧
    pyUpper (pyStrip genInvalid.final_answer) ≠ "X" ∧
    pyUpper (pyStrip genInvalid.final_answer) ≠ "A" ∧
    (∃ r : EnvironmentResult,
      (PatentMatchEnvironment.init.evaluate sampW genInvalid).result =
        Except.ok (EvalResult.base r) ∧
      (∃ tail, r.feedback = "Invalid classification" ++ tail) ∧
      r.metrics.lookup "accuracy" = some (MVal.q 0)) :=
  ⟨rfl, by decide, by decide,
   claim_C1 PatentMatchEnvironment.init sampW genInvalid none rfl (by decide) (by decide)⟩

/-- C2: `evaluate` normalizes the prediction itself — replacing the final
answer by its trimmed, upper-cased form changes nothing about the call, and
the prediction field of a returned `PatentEnvironmentResult` is exactly the
trimmed, upper-cased final answer. -/
theorem claim_C2 (env : PatentMatchEnvironment) (sampleArg : SampleArg) (g : GeneratorOutput) :
    env.evaluate sampleArg g =
      env.evaluate sampleArg { g with final_answer := pyUpper (pyStrip g.final_answer) } ∧
    ∀ r : PatentEnvironmentResult,
      (env.evaluate sampleArg g).result = Except.ok (EvalResult.patent r) →
      r.prediction = pyUpper (pyStrip g.final_answer) := by
  constructor
  · simp only [PatentMatchEnvironment.evaluate, norm_idem]
  · intro r hr
    cases hprob : extractProb g.raw with
    | error e =>
      rw [evaluate_error env sampleArg g e hprob] at hr
      simp at hr
    | ok p =>
      by_cases h : pyUpper (pyStrip g.final_answer) = "X" ∨ pyUpper (pyStrip g.final_answer) = "A"
      · rw [evaluate_valid env sampleArg g p hprob h] at hr
        simp only [Except.ok.injEq, EvalResult.patent.injEq] at hr
        rw [← hr]
      · rw [evaluate_invalid env sampleArg g p hprob h] at hr
        simp at hr

/-- Concrete instantiation of C2 on the answer " x ". -/
theorem claim_C2_witness :
    PatentMatchEnvironment.init.evaluate sampW genW =
      PatentMatchEnvironment.init.evaluate sampW
        { genW with final_answer := pyUpper (pyStrip genW.final_answer) } ∧
    resW.prediction = pyUpper (pyStrip genW.final_answer) :=
  ⟨(claim_C2 PatentMatchEnvironment.init sampW genW).1,
   (claim_C2 PatentMatchEnvironment.init sampW genW).2 resW rfl⟩

/-- C3: on a valid ("X" or "A") normalized prediction, whatever result the
call returns is a `PatentEnvironmentResult` whose metrics mapping contains
entries for accuracy, precision, recall, f1 and perplexity. -/
theorem claim_C3 (env : PatentMatchEnvironment) (sampleArg : SampleArg) (g : GeneratorOutput)
    (h : pyUpper (pyStrip g.final_answer) = "X" ∨ pyUpper (pyStrip g.final_answer) = "A") :
    ∀ res : EvalResult, (env.evaluate sampleArg g).result = Except.ok res →
      ∃ r : PatentEnvironmentResult, res = EvalResult.patent r ∧
        (r.metrics.lookup "accuracy").isSome = true ∧
        (r.metrics.lookup "precision").isSome = true ∧
        (r.metrics.lookup "recall").isSome = true ∧
        (r.metrics.lookup "f1").isSome = true ∧
        (r.metrics.lookup "perplexity").isSome = true := by
  intro res hres
  cases hprob : extractProb g.raw with
  | error e =>
    rw [evaluate_error env sampleArg g e hprob] at hres
    simp at hres
  | ok p =>
    rw [evaluate_valid env sampleArg g p hprob h] at hres
    simp only [Except.ok.injEq] at hres
    refine ⟨_, hres.symm, ?_, ?_, ?_, ?_, ?_⟩
    · exact compute_lookup_isSome _ _ (Or.inl rfl)
    · exact compute_lookup_isSome _ _ (Or.inr (Or.inl rfl))
    · exact compute_lookup_isSome _ _ (Or.inr (Or.inr (Or.inl rfl)))
    · exact compute_lookup_isSome _ _ (Or.inr (Or.inr (Or.inr (Or.inl rfl))))
    · exact compute_lookup_isSome _ _ (Or.inr (Or.inr (Or.inr (Or.inr rfl))))

/-- Concrete instantiation of C3 on the answer " x ". -/
theorem claim_C3_witness :
    (pyUpper (pyStrip genW.final_answer) = "X" ∨ pyUpper (pyStrip genW.final_answer) = "A") ∧
    (PatentMatchEnvironment.init.evaluate sampW genW).result =
      Except.ok (EvalResult.patent resW) ∧
    (∃ r : PatentEnvironmentResult, EvalResult.patent resW = EvalResult.patent r ∧
      (r.metrics.lookup "accuracy").isSome = true ∧
      (r.metrics.lookup "precision").isSome = true ∧
      (r.metrics.lookup "recall").isSome = true ∧
      (r.metrics.lookup "f1").isSome = true ∧
      (r.metrics.lookup "perplexity").isSome = true) :=
  ⟨by decide, rfl,
   claim_C3 PatentMatchEnvironment.init sampW genW (by decide) (EvalResult.patent resW) rfl⟩

/-- C4: on a valid prediction, whatever result the call returns is a
`PatentEnvironmentResult` whose probability is `float(raw["confidence"])`
when the key is present, otherwise `float(raw["probability"])` when that key
is present, otherwise none — confidence takes precedence. -/
theorem claim_C4 (env : PatentMatchEnvironment) (sampleArg : SampleArg) (g : GeneratorOutput)
    (h : pyUpper (pyStrip g.final_answer) = "X" ∨ pyUpper (pyStrip g.final_answer) = "A") :
    ∀ res : EvalResult, (env.evaluate sampleArg g).result = Except.ok res →
      ∃ r : PatentEnvironmentResult, res = EvalResult.patent r ∧
        (∀ (v : PyVal) (q : ℚ), g.raw.lookup "confidence" = some v →
          pyFloat v = Except.ok q → r.probability = some q) ∧
        (g.raw.lookup "confidence" = none →
          ∀ (v : PyVal) (q : ℚ), g.raw.lookup "probability" = some v →
            pyFloat v = Except.ok q → r.probability = some q) ∧
        (g.raw.lookup "confidence" = none → g.raw.lookup "probability" = none →
          r.probability = none) := by
  intro res hres
  cases hprob : extractProb g.raw with
  | error e =>
    rw [evaluate_error env sampleArg g e hprob] at hres
    simp at hres
  | ok p =>
    rw [evaluate_valid env sampleArg g p hprob h] at hres
    simp only [Except.ok.injEq] at hres
    refine ⟨_, hres.symm, ?_, ?_, ?_⟩
    · intro v q hv hq
      show p = some q
      simp only [extractProb, hv, hq] at hprob
      simp only [Except.ok.injEq] at hprob
      exact hprob.symm
    · intro hc v q hv hq
      show p = some q
      simp only [extractProb, hc, hv, hq] at hprob
      simp only [Except.ok.injEq] at hprob
      exact hprob.symm
    · intro hc hp2
      show p = none
      simp only [extractProb, hc, hp2] at hprob
      simp only [Except.ok.injEq] at hprob
      exact hprob.symm

/-- Concrete instantiation of C4 on a raw mapping carrying both a confidence
and a probability entry. -/
theorem claim_C4_witness :
    (pyUpper (pyStrip genBoth.final_answer) = "X" ∨
      pyUpper (pyStrip genBoth.final_answer) = "A") ∧
    (PatentMatchEnvironment.init.evaluate sampW genBoth).result =
      Except.ok (EvalResult.patent resB) ∧
    (∃ r : PatentEnvironmentResult, EvalResult.patent resB = EvalResult.patent r ∧
      (∀ (v : PyVal) (q : ℚ), genBoth.raw.lookup "confidence" = some v →
        pyFloat v = Except.ok q → r.probability = some q) ∧
      (genBoth.raw.lookup "confidence" = none →
        ∀ (v : PyVal) (q : ℚ), genBoth.raw.lookup "probability" = some v →
          pyFloat v = Except.ok q → r.probability = some q) ∧
      (genBoth.raw.lookup "confidence" = none → genBoth.raw.lookup "probability" = none →
        r.probability = none)) :=
  ⟨by decide, rfl,
   claim_C4 PatentMatchEnvironment.init sampW genBoth (by decide) (EvalResult.patent resB) rfl⟩

/-- C8: an invalid prediction leaves the accumulated metric state
unchanged — calculator predictions, labels and probabilities, and the step
metrics, are identical before and after the call. -/
theorem claim_C8 (env : PatentMatchEnvironment) (sampleArg : SampleArg) (g : GeneratorOutput)
    (h1 : pyUpper (pyStrip g.final_answer) ≠ "X")
    (h2 : pyUpper (pyStrip g.final_answer) ≠ "A") :
    (env.evaluate sampleArg g).env.metrics_calculator.predictions =
        env.metrics_calculator.predictions ∧
    (env.evaluate sampleArg g).env.metrics_calculator.labels =
        env.metrics_calculator.labels ∧
    (env.evaluate sampleArg g).env.metrics_calculator.probabilities =
        env.metrics_calculator.probabilities ∧
    (env.evaluate sampleArg g).env.step_metrics = env.step_metrics := by
  cases hprob : extractProb g.raw with
  | error e =>
    rw [evaluate_error env sampleArg g e hprob]
    exact ⟨rfl, rfl, rfl, rfl⟩
  | ok p =>
    rw [evaluate_invalid env sampleArg g p hprob (not_or.mpr ⟨h1, h2⟩)]
    exact ⟨rfl, rfl, rfl, rfl⟩

/-- Concrete instantiation of C8 on the answer "maybe". -/
theorem claim_C8_witness :
    pyUpper (pyStrip genInvalid.final_answer) ≠ "X" ∧
    pyUpper (pyStrip genInvalid.final_answer) ≠ "A" ∧
    ((PatentMatchEnvironment.init.evaluate sampW genInvalid).env.metrics_calculator.predictions =
        PatentMatchEnvironment.init.metrics_calculator.predictions ∧
     (PatentMatchEnvironment.init.evaluate sampW genInvalid).env.metrics_calculator.labels =
        PatentMatchEnvironment.init.metrics_calculator.labels ∧
     (PatentMatchEnvironment.init.evaluate sampW genInvalid).env.metrics_calculator.probabilities =
        PatentMatchEnvironment.init.metrics_calculator.probabilities ∧
     (PatentMatchEnvironment.init.evaluate sampW genInvalid).env.step_metrics =
        PatentMatchEnvironment.init.step_metrics) :=
  ⟨by decide, by decide,
   claim_C8 PatentMatchEnvironment.init sampW genInvalid (by decide) (by decide)⟩

/-- C9: `compute` divides only behind positivity guards — with at least one
stored pair and "X" among the labels, the positive class is "X", precision
is TP/(TP+FP) when TP+FP is positive and zero otherwise, recall is
TP/(TP+FN) when TP+FN is positive and zero otherwise, and f1 is zero when
precision + recall is zero. -/
theorem claim_C9 (c : MetricsCalculator)
    (hp : c.predictions ≠ []) (hl : c.labels ≠ []) (hx : "X" ∈ c.labels) :
    c.compute.lookup "precision" =
      some (MVal.q
        (if 0 < truePos c.predictions c.labels "X" + falsePos c.predictions c.labels "X"
         then (truePos c.predictions c.labels "X" : ℚ) /
           ((truePos c.predictions c.labels "X" : ℚ) + (falsePos c.predictions c.labels "X" : ℚ))
         else 0)) ∧
    c.compute.lookup "recall" =
      some (MVal.q
        (if 0 < truePos c.predictions c.labels "X" + falseNeg c.predictions c.labels "X"
         then (truePos c.predictions c.labels "X" : ℚ) /
           ((truePos c.predictions c.labels "X" : ℚ) + (falseNeg c.predictions c.labels "X" : ℚ))
         else 0)) ∧
    (precisionOf (truePos c.predictions c.labels "X") (falsePos c.predictions c.labels "X") +
       recallOf (truePos c.predictions c.labels "X") (falseNeg c.predictions c.labels "X") = 0 →
      c.compute.lookup "f1" = some (MVal.q 0)) := by
  rw [compute_entries c hp hl, positiveClass_of_memX hx]
  refine ⟨rfl, rfl, fun hsum => ?_⟩
  show some (MVal.q (f1Of
    (precisionOf (truePos c.predictions c.labels "X") (falsePos c.predictions c.labels "X"))
    (recallOf (truePos c.predictions c.labels "X") (falseNeg c.predictions c.labels "X")))) =
    some (MVal.q 0)
  unfold f1Of
  rw [hsum]
  norm_num

/-- Concrete instantiation of C9 on predictions ["X", "A"] against labels
["X", "X"]. -/
theorem claim_C9_witness :
    calcW.predictions ≠ [] ∧ calcW.labels ≠ [] ∧ "X" ∈ calcW.labels ∧
    (calcW.compute.lookup "precision" =
      some (MVal.q
        (if 0 < truePos calcW.predictions calcW.labels "X" + falsePos calcW.predictions calcW.labels "X"
         then (truePos calcW.predictions calcW.labels "X" : ℚ) /
           ((truePos calcW.predictions calcW.labels "X" : ℚ) +
             (falsePos calcW.predictions calcW.labels "X" : ℚ))
         else 0)) ∧
    calcW.compute.lookup "recall" =
      some (MVal.q
        (if 0 < truePos calcW.predictions calcW.labels "X" + falseNeg calcW.predictions calcW.labels "X"
         then (truePos calcW.predictions calcW.labels "X" : ℚ) /
           ((truePos calcW.predictions calcW.labels "X" : ℚ) +
             (falseNeg calcW.predictions calcW.labels "X" : ℚ))
         else 0)) ∧
    (precisionOf (truePos calcW.predictions calcW.labels "X") (falsePos calcW.predictions calcW.labels "X") +
       recallOf (truePos calcW.predictions calcW.labels "X") (falseNeg calcW.predictions calcW.labels "X") = 0 →
      calcW.compute.lookup "f1" = some (MVal.q 0))) :=
  ⟨by decide, by decide, by decide,
   claim_C9 calcW (by decide) (by decide) (by decide)⟩

end ACE
